import Mathlib

/-!
Verification development for a minimal FastAPI service template.

The embedding follows the source files:
* app/core/config.py  : Settings, get_settings (lru_cache memoization)
* app/api/v1/router.py: health_check and protected_route handlers
* app/main.py         : application assembly (CORS middleware, router mount)

The current-user resolver (app.utils.dependencies.get_current_user) is
referenced by the router but its module is not part of the visible source;
its contract is modelled from the specification and kept abstract as a
function from requests to either an authentication error or a user identity.
-/

/-- Environment mapping seen by the settings loader: ordered key/value pairs,
merging process environment variables with optional .env entries. -/
abbrev Env := List (String × String)

/-- Case-sensitive exact lookup of a variable name, mirroring
model_config case_sensitive=True in app/core/config.py. -/
def envLookup : Env → String → Option String
  | [], _ => none
  | (k, v) :: rest, key => if k = key then some v else envLookup rest key

/-- Double-quote character, used by the JSON list parser. -/
def quoteChar : Char := Char.ofNat 34

/-- Backslash character; escape sequences are not modelled, a backslash makes
the parse fail. -/
def backslashChar : Char := Char.ofNat 92

/-- Whitespace skipping for the JSON list parser. -/
def skipWs : List Char → List Char
  | [] => []
  | c :: cs =>
    if c = ' ' ∨ c = '\t' ∨ c = '\n' ∨ c = '\r' then skipWs cs else c :: cs

/-- Reads the remainder of a double-quoted JSON string (the opening quote has
already been consumed); returns the string and the rest of the input. -/
def parseQuoted : List Char → Option (String × List Char)
  | [] => none
  | c :: cs =>
    if c = quoteChar then some ("", cs)
    else if c = backslashChar then none
    else
      match parseQuoted cs with
      | some (s, rest) => some (String.mk (c :: s.data), rest)
      | none => none

/-- Reads one or more comma-separated quoted strings followed by a closing
bracket; fuel bounds the recursion. -/
def parseItemsAux : Nat → List Char → Option (List String × List Char)
  | 0, _ => none
  | fuel + 1, cs =>
    match skipWs cs with
    | c :: cs1 =>
      if c = quoteChar then
        match parseQuoted cs1 with
        | none => none
        | some (s, cs2) =>
          match skipWs cs2 with
          | ',' :: cs3 =>
            match parseItemsAux fuel cs3 with
            | some (ss, rest) => some (s :: ss, rest)
            | none => none
          | ']' :: cs3 => some ([s], cs3)
          | _ => none
      else none
    | [] => none

/-- Coercion of a raw environment value into a list of strings, modelling the
JSON decoding pydantic-settings applies to complex-typed fields such as
ALLOWED_ORIGINS; none means the value fails to coerce. -/
def parseStringList (v : String) : Option (List String) :=
  match skipWs v.data with
  | '[' :: cs =>
    match skipWs cs with
    | ']' :: rest => if skipWs rest = [] then some [] else none
    | _ =>
      match parseItemsAux (v.length + 1) cs with
      | some (ss, rest) => if skipWs rest = [] then some ss else none
      | none => none
  | _ => none

/-- Configuration value object from app/core/config.py. -/
structure Settings where
  PROJECT_NAME : String
  VERSION : String
  DESCRIPTION : String
  ALLOWED_ORIGINS : List String

/-- Configuration error: an environment value failed to coerce into the
declared type of a Settings field (pydantic validation error). -/
inductive ConfigError where
  | validation (field value : String)

/-- Construction of Settings from the environment, mirroring the field
declarations and defaults of class Settings in app/core/config.py: string
fields take the raw value, the list field is JSON-decoded, and each field
falls back to its declared default when its variable is absent. -/
def Settings.construct (env : Env) : Except ConfigError Settings :=
  let pn := (envLookup env "PROJECT_NAME").getD "FastAPI App"
  let ver := (envLookup env "VERSION").getD "1.0.0"
  let desc := (envLookup env "DESCRIPTION").getD "FastAPI application with best practices"
  match envLookup env "ALLOWED_ORIGINS" with
  | none => Except.ok ⟨pn, ver, desc, ["http://localhost:3000"]⟩
  | some v =>
    match parseStringList v with
    | some origins => Except.ok ⟨pn, ver, desc, origins⟩
    | none => Except.error (ConfigError.validation "ALLOWED_ORIGINS" v)

/-- One call to get_settings from app/core/config.py under lru_cache
semantics: given the cache state it returns the call result and the new cache
state; a hit returns the cached instance unchanged, a miss constructs and
caches on success, and a failed construction caches nothing. -/
def get_settings (env : Env) : Option Settings → Except ConfigError Settings × Option Settings
  | some s => (Except.ok s, some s)
  | none =>
    match Settings.construct env with
    | Except.ok s => (Except.ok s, some s)
    | Except.error e => (Except.error e, none)

/-- Cache state after n successive calls to get_settings in one process,
starting from the empty cache. -/
def settingsCache (env : Env) : Nat → Option Settings
  | 0 => none
  | n + 1 => (get_settings env (settingsCache env n)).2

/-- Result of call number n (zero-based) to get_settings in one process. -/
def nthCallResult (env : Env) (n : Nat) : Except ConfigError Settings :=
  (get_settings env (settingsCache env n)).1

/-- JSON values, as far as the response bodies of this service need. -/
inductive Json where
  | null
  | str (s : String)
  | obj (fields : List (String × Json))

/-- Field lookup in a list of JSON object fields. -/
def lookupField : List (String × Json) → String → Option Json
  | [], _ => none
  | (k, v) :: rest, key => if k = key then some v else lookupField rest key

/-- Field lookup on a JSON value; none when the value is not an object or the
field is absent. -/
def Json.getField : Json → String → Option Json
  | Json.obj fields, key => lookupField fields key
  | _, _ => none

/-- Incoming HTTP request, as far as this service inspects it. -/
structure Request where
  method : String
  path : String
  headers : List (String × String)

/-- Outgoing HTTP response. -/
structure Response where
  status : Nat
  headers : List (String × String)
  body : Json

/-- Modelled from the spec: a user-identity value produced by the external
current-user resolver (app.utils.dependencies.get_current_user is not in the
visible source); kept abstract as a carrier the handler echoes back. -/
structure UserIdent where
  identity : String

/-- JSON rendering of a user identity; never the null value. -/
def UserIdent.toJson (u : UserIdent) : Json := Json.str u.identity

/-- Modelled from the spec: the authentication failure the external resolver
raises for missing or invalid credentials, carrying a detail message. -/
structure AuthError where
  detail : String

/-- Modelled from the spec: how the framework surfaces the resolver failure
to the caller, namely a 401 response whose body carries a detail field and
whose headers include the WWW-Authenticate Bearer challenge. -/
def authErrorResponse (e : AuthError) : Response :=
  ⟨401, [("WWW-Authenticate", "Bearer")], Json.obj [("detail", Json.str e.detail)]⟩

/-- Modelled from the spec: the current-user resolver contract, given request
credentials produce a user identity or fail with an authentication error. -/
abbrev Resolver := Request → Except AuthError UserIdent

/-- Identifiers for the two handlers registered in app/api/v1/router.py. -/
inductive HandlerId where
  | health
  | protectedRoute

/-- Registered route: HTTP method, path, handler. -/
structure Route where
  method : String
  path : String
  handler : HandlerId

/-- Route group from app/api/v1/router.py: the two decorated GET routes. -/
def v1Router : List Route :=
  [⟨"GET", "/health", HandlerId.health⟩, ⟨"GET", "/protected", HandlerId.protectedRoute⟩]

/-- Cross-origin resource-sharing policy carried by the CORS middleware. -/
structure CorsPolicy where
  allow_origins : List String
  allow_credentials : Bool
  allow_methods : List String
  allow_headers : List String

/-- Middleware registered on the application. -/
inductive Middleware where
  | cors (policy : CorsPolicy)

/-- Assembled HTTP application object. -/
structure App where
  title : String
  version : String
  description : String
  middlewares : List Middleware
  routes : List Route

/-- Mounting a route group under a path, mirroring app.include_router with
the given path put in front of every route path. -/
def includeRouter (mountPath : String) (rs : List Route) : List Route :=
  rs.map (fun r => ⟨r.method, mountPath ++ r.path, r.handler⟩)

/-- Application assembly from app/main.py: metadata read from Settings, one
CORS middleware with origins from Settings, credentials allowed and all
methods and headers allowed, and the v1 router mounted under /api/v1. -/
def buildApp (s : Settings) : App :=
  ⟨s.PROJECT_NAME, s.VERSION, s.DESCRIPTION,
   [Middleware.cors ⟨s.ALLOWED_ORIGINS, true, ["*"], ["*"]⟩],
   includeRouter "/api/v1" v1Router⟩

/-- Response of the health_check handler in app/api/v1/router.py. -/
def healthResponse : Response :=
  ⟨200, [], Json.obj [("status", Json.str "healthy")]⟩

/-- Body built by the protected_route handler in app/api/v1/router.py: the
fixed message plus the resolved user echoed back verbatim. -/
def protectedBody (u : UserIdent) : Json :=
  Json.obj [("message", Json.str "This is a protected route"), ("user", UserIdent.toJson u)]

/-- Running one handler on a request. The protected handler first invokes the
resolver dependency; only on success does its body (pbody, the success-payload
builder) run. pbody is a parameter so that independence of the rejection path
from the handler body is expressible. -/
def runHandler (h : HandlerId) (resolve : Resolver) (pbody : UserIdent → Json)
    (req : Request) : Response :=
  match h with
  | HandlerId.health => healthResponse
  | HandlerId.protectedRoute =>
    match resolve req with
    | Except.error e => authErrorResponse e
    | Except.ok u => ⟨200, [], pbody u⟩

/-- First route whose method and path match the request. -/
def findRoute : List Route → String → String → Option HandlerId
  | [], _, _ => none
  | r :: rest, m, p =>
    if r.method = m ∧ r.path = p then some r.handler else findRoute rest m p

/-- Framework default response for an unmatched path. -/
def notFoundResponse : Response :=
  ⟨404, [], Json.obj [("detail", Json.str "Not Found")]⟩

/-- Request dispatch on the assembled application. -/
def handleApp (a : App) (resolve : Resolver) (pbody : UserIdent → Json)
    (req : Request) : Response :=
  match findRoute a.routes req.method req.path with
  | some h => runHandler h resolve pbody req
  | none => notFoundResponse

/-- Canonical request used when stating concrete scenarios. -/
def noHeaderProtectedRequest : Request := ⟨"GET", "/api/v1/protected", []⟩

/-- Resolver that rejects every request, as with a missing credential. -/
def rejectAll : Resolver := fun _ => Except.error ⟨"Not authenticated"⟩

/-- Resolver that accepts every request with a fixed identity. -/
def acceptAll : Resolver := fun _ => Except.ok ⟨"test_user"⟩

/-- C1: whenever the current-user resolver rejects a GET /api/v1/protected
request (missing or invalid credential), the response is the 401
authentication failure with a detail body field and a WWW-Authenticate
Bearer header, and it is independent of the handler body, which therefore
never executes. -/
theorem C1_protected_auth_failure (s : Settings) (resolve : Resolver)
    (pbody1 pbody2 : UserIdent → Json) (req : Request) (e : AuthError)
    (hm : req.method = "GET") (hp : req.path = "/api/v1/protected")
    (hr : resolve req = Except.error e) :
    handleApp (buildApp s) resolve pbody1 req = authErrorResponse e ∧
    handleApp (buildApp s) resolve pbody1 req = handleApp (buildApp s) resolve pbody2 req ∧
    (authErrorResponse e).status = 401 ∧
    (authErrorResponse e).body.getField "detail" = some (Json.str e.detail) ∧
    ("WWW-Authenticate", "Bearer") ∈ (authErrorResponse e).headers := by
  have h1 : ∀ pb : UserIdent → Json,
      handleApp (buildApp s) resolve pb req = authErrorResponse e := by
    intro pb
    simp [handleApp, buildApp, includeRouter, v1Router, findRoute, runHandler, hm, hp, hr]
  refine ⟨h1 pbody1, (h1 pbody1).trans (h1 pbody2).symm, rfl, ?_, ?_⟩
  · simp [authErrorResponse, Json.getField, lookupField]
  · simp [authErrorResponse]

/-- Witness for C1: the concrete no-Authorization-header request against the
rejecting resolver. -/
theorem C1_protected_auth_failure_witness :
    handleApp (buildApp ⟨"FastAPI App", "1.0.0", "FastAPI application with best practices",
        ["http://localhost:3000"]⟩) rejectAll protectedBody noHeaderProtectedRequest
      = authErrorResponse ⟨"Not authenticated"⟩ ∧
    handleApp (buildApp ⟨"FastAPI App", "1.0.0", "FastAPI application with best practices",
        ["http://localhost:3000"]⟩) rejectAll protectedBody noHeaderProtectedRequest
      = handleApp (buildApp ⟨"FastAPI App", "1.0.0", "FastAPI application with best practices",
        ["http://localhost:3000"]⟩) rejectAll (fun _ => Json.null) noHeaderProtectedRequest ∧
    (authErrorResponse ⟨"Not authenticated"⟩).status = 401 ∧
    (authErrorResponse ⟨"Not authenticated"⟩).body.getField "detail"
      = some (Json.str "Not authenticated") ∧
    ("WWW-Authenticate", "Bearer") ∈ (authErrorResponse ⟨"Not authenticated"⟩).headers :=
  C1_protected_auth_failure _ rejectAll protectedBody (fun _ => Json.null)
    noHeaderProtectedRequest ⟨"Not authenticated"⟩ rfl rfl rfl

/-- C2: every GET /api/v1/health request, whatever its headers and whatever
the settings and resolver, gets status 200 with body exactly the object
mapping status to healthy; the handler reads nothing and cannot fail. -/
theorem C2_health_check (s : Settings) (resolve : Resolver) (pbody : UserIdent → Json)
    (req : Request) (hm : req.method = "GET") (hp : req.path = "/api/v1/health") :
    handleApp (buildApp s) resolve pbody req = healthResponse ∧
    healthResponse.status = 200 ∧
    healthResponse.body = Json.obj [("status", Json.str "healthy")] := by
  refine ⟨?_, rfl, rfl⟩
  simp [handleApp, buildApp, includeRouter, v1Router, findRoute, runHandler, hm, hp]

/-- Witness for C2: a concrete health request carrying headers. -/
theorem C2_health_check_witness :
    handleApp (buildApp ⟨"FastAPI App", "1.0.0", "FastAPI application with best practices",
        ["http://localhost:3000"]⟩) rejectAll protectedBody
        ⟨"GET", "/api/v1/health", [("Authorization", "Bearer whatever")]⟩
      = healthResponse ∧
    healthResponse.status = 200 ∧
    healthResponse.body = Json.obj [("status", Json.str "healthy")] :=
  C2_health_check _ rejectAll protectedBody
    ⟨"GET", "/api/v1/health", [("Authorization", "Bearer whatever")]⟩ rfl rfl

/-- C3: whenever the current-user resolver succeeds on a GET
/api/v1/protected request, the response is 200, the message field is exactly
the fixed string, and the user field equals the resolved identity echoed
verbatim, which is present and not null. -/
theorem C3_protected_success (s : Settings) (resolve : Resolver) (req : Request)
    (u : UserIdent) (hm : req.method = "GET") (hp : req.path = "/api/v1/protected")
    (hr : resolve req = Except.ok u) :
    (handleApp (buildApp s) resolve protectedBody req).status = 200 ∧
    (handleApp (buildApp s) resolve protectedBody req).body.getField "message"
      = some (Json.str "This is a protected route") ∧
    (handleApp (buildApp s) resolve protectedBody req).body.getField "user"
      = some (UserIdent.toJson u) ∧
    UserIdent.toJson u ≠ Json.null := by
  have h1 : handleApp (buildApp s) resolve protectedBody req
      = ⟨200, [], protectedBody u⟩ := by
    simp [handleApp, buildApp, includeRouter, v1Router, findRoute, runHandler, hm, hp, hr]
  rw [h1]
  refine ⟨rfl, ?_, ?_, ?_⟩
  · simp [protectedBody, Json.getField, lookupField]
  · simp [protectedBody, Json.getField, lookupField]
  · simp [UserIdent.toJson]

/-- Witness for C3: the accepting resolver on a concrete bearer-token
request. -/
theorem C3_protected_success_witness :
    (handleApp (buildApp ⟨"FastAPI App", "1.0.0", "FastAPI application with best practices",
        ["http://localhost:3000"]⟩) acceptAll protectedBody
        ⟨"GET", "/api/v1/protected", [("Authorization", "Bearer fake_test_token")]⟩).status
      = 200 ∧
    (handleApp (buildApp ⟨"FastAPI App", "1.0.0", "FastAPI application with best practices",
        ["http://localhost:3000"]⟩) acceptAll protectedBody
        ⟨"GET", "/api/v1/protected", [("Authorization", "Bearer fake_test_token")]⟩).body.getField
        "message" = some (Json.str "This is a protected route") ∧
    (handleApp (buildApp ⟨"FastAPI App", "1.0.0", "FastAPI application with best practices",
        ["http://localhost:3000"]⟩) acceptAll protectedBody
        ⟨"GET", "/api/v1/protected", [("Authorization", "Bearer fake_test_token")]⟩).body.getField
        "user" = some (UserIdent.toJson ⟨"test_user"⟩) ∧
    UserIdent.toJson ⟨"test_user"⟩ ≠ Json.null :=
  C3_protected_success _ acceptAll
    ⟨"GET", "/api/v1/protected", [("Authorization", "Bearer fake_test_token")]⟩
    ⟨"test_user"⟩ rfl rfl rfl

/-- C4: get_settings is memoized process-wide; once the first call has
constructed a Settings value, every call (the first included) returns that
same cached instance and the cache holds it unchanged, with no invalidation
or refresh path. -/
theorem C4_get_settings_memoized (env : Env) (s : Settings)
    (h : nthCallResult env 0 = Except.ok s) :
    ∀ n, nthCallResult env n = Except.ok s ∧ settingsCache env (n + 1) = some s := by
  cases hce : Settings.construct env with
  | error e =>
    exfalso
    simp [nthCallResult, settingsCache, get_settings, hce] at h
  | ok t =>
    have hts : t = s := by
      simp [nthCallResult, settingsCache, get_settings, hce] at h
      exact h
    subst hts
    have hcache : ∀ n, settingsCache env (n + 1) = some t := by
      intro n
      induction n with
      | zero => simp [settingsCache, get_settings, hce]
      | succ k ih =>
        show (get_settings env (settingsCache env (k + 1))).2 = some t
        rw [ih]
        rfl
    intro n
    cases n with
    | zero => exact ⟨h, hcache 0⟩
    | succ k =>
      refine ⟨?_, hcache (k + 1)⟩
      show (get_settings env (settingsCache env (k + 1))).1 = Except.ok t
      rw [hcache k]
      rfl

/-- Witness for C4: an empty environment; call number 3 still returns the
instance cached by call number 0. -/
theorem C4_get_settings_memoized_witness :
    nthCallResult ([] : Env) 3
      = Except.ok (⟨"FastAPI App", "1.0.0", "FastAPI application with best practices",
          ["http://localhost:3000"]⟩ : Settings) ∧
    settingsCache ([] : Env) 4
      = some (⟨"FastAPI App", "1.0.0", "FastAPI application with best practices",
          ["http://localhost:3000"]⟩ : Settings) :=
  C4_get_settings_memoized [] _ rfl 3

/-- C5: with no matching environment entries the constructed Settings value
carries the documented defaults, and matching is case-sensitive: entries
differing only in case are ignored. -/
theorem C5_defaults :
    Settings.construct []
      = Except.ok ⟨"FastAPI App", "1.0.0", "FastAPI application with best practices",
          ["http://localhost:3000"]⟩ ∧
    Settings.construct [("project_name", "Other"), ("version", "9.9.9"),
        ("description", "other"), ("allowed_origins", "oops")]
      = Except.ok ⟨"FastAPI App", "1.0.0", "FastAPI application with best practices",
          ["http://localhost:3000"]⟩ := by
  exact ⟨rfl, rfl⟩

/-- C6: when the ALLOWED_ORIGINS environment value fails to coerce into a
list of strings, construction fails with a configuration error, the first
get_settings call surfaces that error, and no Settings value is cached. -/
theorem C6_config_error (env : Env) (v : String)
    (hv : envLookup env "ALLOWED_ORIGINS" = some v)
    (hparse : parseStringList v = none) :
    Settings.construct env = Except.error (ConfigError.validation "ALLOWED_ORIGINS" v) ∧
    nthCallResult env 0 = Except.error (ConfigError.validation "ALLOWED_ORIGINS" v) ∧
    settingsCache env 1 = none := by
  have hc : Settings.construct env
      = Except.error (ConfigError.validation "ALLOWED_ORIGINS" v) := by
    simp [Settings.construct, hv, hparse]
  refine ⟨hc, ?_, ?_⟩
  · simp [nthCallResult, settingsCache, get_settings, hc]
  · simp [settingsCache, get_settings, hc]

/-- Witness for C6: a value that is not a JSON list of strings. -/
theorem C6_config_error_witness :
    Settings.construct [("ALLOWED_ORIGINS", "not a json list")]
      = Except.error (ConfigError.validation "ALLOWED_ORIGINS" "not a json list") ∧
    nthCallResult [("ALLOWED_ORIGINS", "not a json list")] 0
      = Except.error (ConfigError.validation "ALLOWED_ORIGINS" "not a json list") ∧
    settingsCache [("ALLOWED_ORIGINS", "not a json list")] 1 = none :=
  C6_config_error [("ALLOWED_ORIGINS", "not a json list")] "not a json list" rfl rfl

/-- C7: the assembled application registers exactly one middleware, the CORS
policy whose allowed origins are exactly the ALLOWED_ORIGINS of Settings,
with credentials allowed and all methods and headers allowed; no route
carries any policy of its own. -/
theorem C7_cors_policy (s : Settings) :
    (buildApp s).middlewares
      = [Middleware.cors ⟨s.ALLOWED_ORIGINS, true, ["*"], ["*"]⟩] ∧
    (buildApp s).middlewares.length = 1 := by
  exact ⟨rfl, rfl⟩

/-- C8: the cached Settings instance is never mutated: once the cache holds
an instance, every later call observes the cache holding that same instance
and returns it, and every read the application assembly performs observes
exactly the field values fixed at construction. -/
theorem C8_settings_immutable (env : Env) (s : Settings) (n : Nat)
    (h : settingsCache env n = some s) :
    (∀ m, settingsCache env (n + m) = some s ∧ nthCallResult env (n + m) = Except.ok s) ∧
    (buildApp s).title = s.PROJECT_NAME ∧
    (buildApp s).version = s.VERSION ∧
    (buildApp s).description = s.DESCRIPTION ∧
    (buildApp s).middlewares
      = [Middleware.cors ⟨s.ALLOWED_ORIGINS, true, ["*"], ["*"]⟩] := by
  have hcache : ∀ m, settingsCache env (n + m) = some s := by
    intro m
    induction m with
    | zero => exact h
    | succ k ih =>
      show settingsCache env (n + k + 1) = some s
      show (get_settings env (settingsCache env (n + k))).2 = some s
      rw [ih]
      rfl
  refine ⟨fun m => ⟨hcache m, ?_⟩, rfl, rfl, rfl, rfl⟩
  show (get_settings env (settingsCache env (n + m))).1 = Except.ok s
  rw [hcache m]
  rfl

/-- Witness for C8: the empty environment after one call. -/
theorem C8_settings_immutable_witness :
    ((∀ m, settingsCache ([] : Env) (1 + m)
        = some (⟨"FastAPI App", "1.0.0", "FastAPI application with best practices",
            ["http://localhost:3000"]⟩ : Settings) ∧
      nthCallResult ([] : Env) (1 + m)
        = Except.ok (⟨"FastAPI App", "1.0.0", "FastAPI application with best practices",
            ["http://localhost:3000"]⟩ : Settings)) ∧
    (buildApp ⟨"FastAPI App", "1.0.0", "FastAPI application with best practices",
        ["http://localhost:3000"]⟩).title = "FastAPI App" ∧
    (buildApp ⟨"FastAPI App", "1.0.0", "FastAPI application with best practices",
        ["http://localhost:3000"]⟩).version = "1.0.0" ∧
    (buildApp ⟨"FastAPI App", "1.0.0", "FastAPI application with best practices",
        ["http://localhost:3000"]⟩).description = "FastAPI application with best practices" ∧
    (buildApp ⟨"FastAPI App", "1.0.0", "FastAPI application with best practices",
        ["http://localhost:3000"]⟩).middlewares
      = [Middleware.cors ⟨["http://localhost:3000"], true, ["*"], ["*"]⟩]) :=
  C8_settings_immutable [] _ 1 rfl

/-- C9: the route group mounted at /api/v1 registers exactly two routes, the
health route at exactly /api/v1/health and the protected route at exactly
/api/v1/protected. -/
theorem C9_routes (s : Settings) :
    (buildApp s).routes
      = [⟨"GET", "/api/v1/health", HandlerId.health⟩,
         ⟨"GET", "/api/v1/protected", HandlerId.protectedRoute⟩] := by
  rfl

/-- C10: the health handler is deterministic and noninterfering: two
executions with arbitrarily different settings, resolvers, handler bodies and
request content produce the identical health response. -/
theorem C10_health_noninterference (s1 s2 : Settings) (r1 r2 : Resolver)
    (pb1 pb2 : UserIdent → Json) (q1 q2 : Request)
    (h1m : q1.method = "GET") (h1p : q1.path = "/api/v1/health")
    (h2m : q2.method = "GET") (h2p : q2.path = "/api/v1/health") :
    handleApp (buildApp s1) r1 pb1 q1 = handleApp (buildApp s2) r2 pb2 q2 := by
  have e1 := (C2_health_check s1 r1 pb1 q1 h1m h1p).1
  have e2 := (C2_health_check s2 r2 pb2 q2 h2m h2p).1
  rw [e1, e2]

/-- Witness for C10: two executions whose settings, resolvers, handler bodies
and request headers all differ still give the identical health response. -/
theorem C10_health_noninterference_witness :
    handleApp (buildApp ⟨"FastAPI App", "1.0.0", "FastAPI application with best practices",
        ["http://localhost:3000"]⟩) rejectAll protectedBody
        ⟨"GET", "/api/v1/health", []⟩
      = handleApp (buildApp ⟨"Another", "2.0.0", "different", ["https://example.com"]⟩)
        acceptAll (fun _ => Json.null)
        ⟨"GET", "/api/v1/health", [("Authorization", "Bearer fake_test_token")]⟩ :=
  C10_health_noninterference _ _ rejectAll acceptAll protectedBody (fun _ => Json.null)
    ⟨"GET", "/api/v1/health", []⟩
    ⟨"GET", "/api/v1/health", [("Authorization", "Bearer fake_test_token")]⟩
    rfl rfl rfl rfl
